import Mathlib

/-!
Verification development for the `ai-weather-agent` repository.

The repository contains two Python agents:

* `src/dummy/first_aiagent.py` — `SimpleAIAgent`: a single-turn tool-dispatch
  loop (`run`) over three tools (`get_current_weather`, `get_search_results`,
  `get_location_coords`), a Gemini function-calling reasoning client
  (`_get_llm_response_with_tools`), and an append-only conversation log
  (`self.memory`).
* `src/simple_agent.py` + `src/fastapi_server.py` — a web front end whose
  `POST /api/chat` endpoint calls `_get_current_weather(city, state)`, a
  single structured-output Gemini call with no tool dispatch.

The embedding below is shallow: each external HTTP interaction is represented
by a "reply" datatype enumerating the observable outcomes the Python code
distinguishes (success shape, non-2xx status, malformed body, raised
exception), and every function additionally returns the list of events
(network requests attempted, nested tool entry) it performs, in order.
Strings are built exactly as the Python f-strings build them.
-/

namespace WeatherAgent

/-- A single apostrophe character, used to build the source's message strings
(e.g. "I'm sorry, ..."). Char 39 is the ASCII apostrophe. -/
def apos : String := String.singleton (Char.ofNat 39)

/-- One record of `self.memory`: a `{"role": ..., "content": ...}` dict. -/
structure Entry where
  role : String
  content : String
deriving DecidableEq

/-- Observable events, in program order: each attempted outbound network
request, plus entry into the nested geocoding tool (the `print` at the top of
`_get_location_coords` marks the nested tool call the spec talks about). -/
inductive Ev where
  /-- POST to the Gemini reasoning service carrying the given prompt. -/
  | reasoningNet (prompt : String)
  /-- Entry into `_get_location_coords` (the nested geocoding tool call). -/
  | geoToolCall (loc : String)
  /-- HTTP GET to the OpenCage geocoding provider. -/
  | geoNet (loc : String)
  /-- HTTP GET to the Open-Meteo weather provider with these coordinates. -/
  | weatherNet (lat lon : Int)
  /-- Search request through the serpapi library. -/
  | searchNet (q : String)
deriving DecidableEq

/-- `true` exactly on events that are outbound network requests. -/
def isNetEv : Ev → Bool
  | .reasoningNet _ => true
  | .geoToolCall _ => false
  | .geoNet _ => true
  | .weatherNet _ _ => true
  | .searchNet _ => true

/-- `true` exactly on entries into the geocoding tool. -/
def isGeoToolCall : Ev → Bool
  | .geoToolCall _ => true
  | _ => false

/-- `true` exactly on weather-provider network requests. -/
def isWeatherNet : Ev → Bool
  | .weatherNet _ _ => true
  | _ => false

/-- `true` exactly on geocoding-provider network requests. -/
def isGeoNet : Ev → Bool
  | .geoNet _ => true
  | _ => false

/-! ## Geocoding tool: `_get_location_coords` -/

/-- Externally observable outcome of the OpenCage HTTP GET, as the code
distinguishes them: 200 with a non-empty `results` list (first result's
geometry giving lat/lng), 200 with no results, non-200 status with a body
text, or a raised exception (timeout, DNS, ...). Coordinates are JSON
numbers; the claims never depend on their numeric type, so they are
embedded as `Int`. -/
inductive GeoReply where
  | ok (lat lon : Int)
  | okNoResults
  | httpError (status : Nat) (body : String)
  | transportFail (msg : String)
deriving DecidableEq

/-- Structured value of the string `_get_location_coords` returns: either the
`json.dumps({"latitude": lat, "longitude": lon})` success payload or an
error message. -/
inductive CoordsResult where
  | coords (lat lon : Int)
  | errorStr (s : String)
deriving DecidableEq

/-- The credential-missing message of `_get_location_coords`, verbatim. -/
def opencageKeyError : String :=
  "Error: OpenCage API key is not set. Please get a free key from https://opencagedata.com/pricing and set the OPENCAGE_API_KEY environment variable or replace " ++
    (apos ++ ("YOUR_OPENCAGE_API_KEY" ++ (apos ++ " in the code.")))

/-- `json.dumps({"latitude": lat, "longitude": lon})`. -/
def coordsJson (lat lon : Int) : String :=
  "\x7b\"latitude\": " ++ (toString lat ++ (", \"longitude\": " ++ (toString lon ++ "\x7d")))

/-- `_get_location_coords`, with the returned string kept structured (see
`coordsResultStr` for the rendering). The key check (`not key or key ==
"YOUR_OPENCAGE_API_KEY"`; an unset env var yields the placeholder default)
happens before the HTTP GET, so the key-missing branch performs no network
request. -/
def getLocationCoordsR (key : String) (geo : GeoReply) (loc : String) :
    CoordsResult × List Ev :=
  if key = "" ∨ key = "YOUR_OPENCAGE_API_KEY" then
    (.errorStr opencageKeyError, [.geoToolCall loc])
  else
    match geo with
    | .ok lat lon => (.coords lat lon, [.geoToolCall loc, .geoNet loc])
    | .okNoResults =>
        (.errorStr ("Error: No coordinates found for location " ++
          (apos ++ (loc ++ (apos ++ ".")))), [.geoToolCall loc, .geoNet loc])
    | .httpError st body =>
        (.errorStr ("Error: Failed to fetch coordinates. Status code: " ++
          (toString st ++ (". Details: " ++ body))), [.geoToolCall loc, .geoNet loc])
    | .transportFail m =>
        (.errorStr ("An error occurred during the API call: " ++ m),
          [.geoToolCall loc, .geoNet loc])

/-- The string `_get_location_coords` actually returns. -/
def coordsResultStr : CoordsResult → String
  | .coords la lo => coordsJson la lo
  | .errorStr s => s

/-- `_get_location_coords` as the string-returning tool registered in
`self.tools`. -/
def getLocationCoords (key : String) (geo : GeoReply) (loc : String) :
    String × List Ev :=
  (coordsResultStr (getLocationCoordsR key geo loc).1, (getLocationCoordsR key geo loc).2)

/-! ## Weather tool: `_get_current_weather` -/

/-- Observable outcome of the Open-Meteo HTTP GET: 200 whose
`current_weather` object may or may not carry `temperature` / `windspeed`
(`.get` with default `"N/A"`; a missing `current_weather` object is the
`ok none none` case), a non-200 status, or a raised exception. The numeric
fields only ever appear inside an f-string, so they are embedded as their
rendered strings. -/
inductive WeatherReply where
  | ok (temperature windspeed : Option String)
  | httpError (status : Nat)
  | transportFail (msg : String)
deriving DecidableEq

/-- `current_weather.get(field, "N/A")`. -/
def optNA : Option String → String
  | some s => s
  | none => "N/A"

/-- `_get_current_weather`: first the nested call into
`_get_location_coords`, then `json.loads(coords_result)` under
`try/except (JSONDecodeError, KeyError)`.  The success string is the
geocoder's own `json.dumps` of the pair, which round-trips; every failure
string starts with "Error" or "An error" and is not valid JSON, so
`json.loads` raises and the geocoding error string is returned unchanged.
The `match` on `CoordsResult` mirrors exactly that try/except. Only on
parsed coordinates is the weather-provider GET attempted. -/
def getCurrentWeather (key : String) (geo : GeoReply) (wr : WeatherReply)
    (loc : String) : String × List Ev :=
  match getLocationCoordsR key geo loc with
  | (.errorStr s, gevs) => (s, gevs)
  | (.coords lat lon, gevs) =>
    match wr with
    | .ok t w =>
        ("The current weather in " ++
          (loc ++ (" is " ++ (optNA t ++ ("°C with a wind speed of " ++
            (optNA w ++ " km/h."))))), gevs ++ [.weatherNet lat lon])
    | .httpError st =>
        ("Error: Failed to fetch weather data. Status code: " ++ toString st,
          gevs ++ [.weatherNet lat lon])
    | .transportFail m =>
        ("An error occurred during the API call: " ++ m,
          gevs ++ [.weatherNet lat lon])

/-! ## Search tool: `_get_search_results` -/

/-- One entry of `organic_results`; each field is read with `.get` and a
"No ..." default. -/
structure SearchItem where
  title : Option String
  link : Option String
  snippet : Option String
deriving DecidableEq

/-- Observable outcome of the serpapi call: a result object whose
`organic_results` list (default `[]`) is given, or a raised exception. -/
inductive SearchReply where
  | ok (organic : List SearchItem)
  | fail (msg : String)
deriving DecidableEq

/-- The credential-missing message of `_get_search_results`, verbatim. -/
def serpapiKeyError : String :=
  "Error: SerpApi key is not set. Please get a key from https://serpapi.com/users/sign_up and set the SERPAPI_API_KEY environment variable or replace " ++
    (apos ++ ("YOUR_SERPAPI_KEY" ++ (apos ++ " in the code.")))

/-- The per-result f-string of `_get_search_results`. -/
def formatSearchItem (i : Nat) (r : SearchItem) : String :=
  toString (i + 1) ++ (". " ++ ((r.title.getD "No Title") ++
    ("\n   Link: " ++ ((r.link.getD "No Link") ++
      ("\n   Snippet: " ++ (r.snippet.getD "No Snippet"))))))

/-- `json.dumps` escaping for the characters that can occur in the formatted
results (backslash, double quote, newline; char codes 92, 34, 10). -/
def jsonEscapeChar (c : Char) : String :=
  if c = Char.ofNat 92 then String.singleton (Char.ofNat 92) ++ String.singleton (Char.ofNat 92)
  else if c = Char.ofNat 34 then String.singleton (Char.ofNat 92) ++ String.singleton (Char.ofNat 34)
  else if c = Char.ofNat 10 then String.singleton (Char.ofNat 92) ++ "n"
  else String.singleton c

/-- `json.dumps` of a list of strings (default separator ", "). -/
def jsonDumpsStrList (l : List String) : String :=
  "[" ++ (String.intercalate ", "
    (l.map fun s => "\"" ++ (String.join (s.toList.map jsonEscapeChar) ++ "\"")) ++ "]")

/-- `_get_search_results`: key check first (before any request), then the
serpapi call; `organic_results[:5]` enumerated and formatted, empty list
giving the fixed "No search results found." string. -/
def getSearchResults (key : String) (sr : SearchReply) (q : String) :
    String × List Ev :=
  if key = "" ∨ key = "YOUR_SERPAPI_KEY" then (serpapiKeyError, [])
  else
    match sr with
    | .fail m => ("An error occurred during the SerpApi call: " ++ m, [.searchNet q])
    | .ok l =>
      if l = [] then ("No search results found.", [.searchNet q])
      else (jsonDumpsStrList ((l.take 5).enum.map fun p => formatSearchItem p.1 p.2),
        [.searchNet q])

/-! ## Reasoning client: `_get_llm_response_with_tools` -/

/-- Shape of `candidates[0].content.parts[0]` in a 200 reply: either a
`functionCall` part (name and argument mapping; the schemas declare one
string parameter per tool, and values reach the tools only as strings) or a
`text` part. -/
inductive LLMContent where
  | functionCall (name : String) (args : List (String × String))
  | text (t : String)
deriving DecidableEq

/-- Observable outcome of the POST to the reasoning service: a 200 reply with
a well-shaped content part, a 200 reply whose body lacks one of the indexed
keys (`candidates`/`content`/`parts`/`text` — indexing raises, caught by the
function's own `except`), a non-200 status, or a raised transport error. -/
inductive LLMReply where
  | ok (content : LLMContent)
  | okMalformed
  | httpError (status : Nat) (body : String)
  | transportFail (msg : String)
deriving DecidableEq

/-- Parsed form of the JSON string `_get_llm_response_with_tools` returns.
The function builds that string itself with `json.dumps`, and `run` parses it
right back with `json.loads`, so the round-trip is embedded structurally:
`action` is the constructor, and the `error` payload carries the `response`
field (which `run` never reads). -/
inductive LLMOutput where
  | callTool (name : String) (args : List (String × String))
  | finalResponse (resp : String)
  | error (resp : String)
deriving DecidableEq

/-- `_get_llm_response_with_tools`: one POST per call; a well-shaped 200
reply maps to `call_tool` or `final_response`, a non-200 reply to the fixed
"API call failed." error, and any raised exception (transport failure or
missing key while indexing the body) to the fixed "Network request failed."
error. All four branches return normally — the `try/except` spans the whole
request. -/
def getLLMResponseWithTools (prompt : String) (r : LLMReply) :
    LLMOutput × List Ev :=
  match r with
  | .ok (.functionCall n a) => (.callTool n a, [.reasoningNet prompt])
  | .ok (.text t) => (.finalResponse t, [.reasoningNet prompt])
  | .okMalformed => (.error "Network request failed.", [.reasoningNet prompt])
  | .httpError _ _ => (.error "API call failed.", [.reasoningNet prompt])
  | .transportFail _ => (.error "Network request failed.", [.reasoningNet prompt])

/-! ## Dispatch loop: `run` -/

/-- The two credentials the tools read (`OPENCAGE_API_KEY`,
`SERPAPI_API_KEY`); the Gemini key only ever appears inside the request URL
and does not influence control flow, so it is not modelled. -/
structure Keys where
  opencage : String
  serpapi : String
deriving DecidableEq

/-- The external behaviors one turn can consume: the reasoning-service reply
and, should the corresponding tool run, the geocoding, weather and search
outcomes. -/
structure Ext where
  llm : LLMReply
  geo : GeoReply
  weather : WeatherReply
  search : SearchReply
deriving DecidableEq

/-- The keys of `self.tools`. -/
def toolNames : List String :=
  ["get_current_weather", "get_search_results", "get_location_coords"]

/-- Binding of `tool_func(**tool_args)` for a function with exactly one
required parameter `param` and no defaults: the argument dict must hold
exactly that key, else Python raises `TypeError` (missing required argument
or unexpected keyword argument), embedded as `none`. A JSON object has no
duplicate keys, so the dict is a list of at most one distinct binding per
key. -/
def argsSingle (args : List (String × String)) (param : String) :
    Option String :=
  match args with
  | [(k, v)] => if k = param then some v else none
  | _ => none

/-- Dispatch `tool_func(**tool_args)` for a registered tool name; `none` is
the `TypeError` raised at the invocation itself. -/
def invokeTool (keys : Keys) (ext : Ext) (name : String)
    (args : List (String × String)) : Option (String × List Ev) :=
  if name = "get_current_weather" then
    (argsSingle args "location").map
      (getCurrentWeather keys.opencage ext.geo ext.weather)
  else if name = "get_search_results" then
    (argsSingle args "query").map (getSearchResults keys.serpapi ext.search)
  else if name = "get_location_coords" then
    (argsSingle args "location_name").map (getLocationCoords keys.opencage ext.geo)
  else none

/-- The fixed template of the tool-result response. -/
def toolResponsePrefix : String :=
  "I used my tool to get the information. Here" ++ (apos ++ "s what I found: ")

/-- The fixed diagnostic named after a missing tool. -/
def toolMissingMsg (name : String) : String :=
  "Error: The requested tool " ++ (apos ++ (name ++ (apos ++ " does not exist.")))

/-- The else-branch response of `run` (the `action == "error"` case lands
here, its `response` field ignored). -/
def unableMsg : String :=
  "I" ++ (apos ++ ("m sorry, I" ++ (apos ++ "m unable to process that request.")))

/-- The `except json.JSONDecodeError` response of `run`. -/
def internalErrorMsg : String :=
  "I encountered an internal error. Please try again."

/-- The `except Exception` response of `run`. -/
def unexpectedFaultMsg : String :=
  "I" ++ (apos ++ "m sorry, an unexpected error occurred.")

/-- Result of `run`'s `try` body: either a normal return (response, memory,
events) or an exception escaping to one of the two handlers, with the memory
and events accumulated up to the raise. The `jsonDecode` flag selects the
handler; it is never `true` here, because the only `json.loads` in the body
parses the reasoning client's own `json.dumps` output, which always
succeeds — the only reachable fault is the `TypeError` of
`tool_func(**tool_args)`. -/
inductive RunStep where
  | ok (resp : String) (mem : List Entry) (evs : List Ev)
  | fault (jsonDecode : Bool) (mem : List Entry) (evs : List Ev)
deriving DecidableEq

/-- The `try` body of `run`: append the user entry, consult the reasoning
client, branch on the decision, and (on a normal path) append the assistant
entry before returning. -/
def runBody (mem : List Entry) (keys : Keys) (ext : Ext) (u : String) :
    RunStep :=
  let mem1 := mem ++ [⟨"user", u⟩]
  match getLLMResponseWithTools u ext.llm with
  | (.callTool name args, evs0) =>
    if name ∈ toolNames then
      match invokeTool keys ext name args with
      | some (result, tevs) =>
        let resp := toolResponsePrefix ++ result
        .ok resp (mem1 ++ [⟨"assistant", resp⟩]) (evs0 ++ tevs)
      | none => .fault false mem1 evs0
    else
      let resp := toolMissingMsg name
      .ok resp (mem1 ++ [⟨"assistant", resp⟩]) evs0
  | (.finalResponse t, evs0) => .ok t (mem1 ++ [⟨"assistant", t⟩]) evs0
  | (.error _, evs0) =>
      .ok unableMsg (mem1 ++ [⟨"assistant", unableMsg⟩]) evs0

/-- `SimpleAIAgent.run`: the `try` body under its two handlers. Both
handlers return a fixed string without touching `self.memory`, so on a fault
the assistant entry of the turn is never appended. -/
def run (mem : List Entry) (keys : Keys) (ext : Ext) (u : String) :
    String × List Entry × List Ev :=
  match runBody mem keys ext u with
  | .ok r m e => (r, m, e)
  | .fault true m e => (internalErrorMsg, m, e)
  | .fault false m e => (unexpectedFaultMsg, m, e)

end WeatherAgent

namespace WebAgent

open WeatherAgent (Ev apos)

/-- Observable outcome of `simple_agent._get_current_weather`'s single Gemini
call, one constructor per handler of the function: a fully parsed structured
reply (the model's JSON text carrying `city`, `state`, `temperature`), a
`KeyError` while indexing the body or the parsed JSON, a `JSONDecodeError`
from either decode, an HTTP status error from `raise_for_status`, or any
other exception (transport failure, empty `candidates` list, ...). -/
inductive SAReply where
  | success (city state temperature : String)
  | keyErrorReply
  | jsonErrorReply
  | httpStatusError (status : Nat)
  | otherException (msg : String)
deriving DecidableEq

/-- The prompt `simple_agent._get_current_weather` synthesizes from the
structured `{city, state}` query. -/
def saPrompt (city state : String) : String :=
  "What is the current temperature in " ++
    (city ++ (", " ++ (state ++
      "? Please respond with only a single JSON object containing the city, state, and temperature. Do not include any other text.")))

/-- The `response` string of `simple_agent._get_current_weather`, per
outcome. The success string is built from the model's parsed JSON fields,
not from the input city/state. -/
def saText (r : SAReply) : String :=
  match r with
  | .success c s t =>
      "The current temperature in " ++ (c ++ (", " ++ (s ++ (" is " ++ (t ++ ".")))))
  | .keyErrorReply =>
      "I" ++ (apos ++ ("m sorry, there was an issue parsing the API" ++
        (apos ++ "s response. Please try again.")))
  | .jsonErrorReply =>
      "I" ++ (apos ++ "m sorry, the API returned an invalid response. Please try again.")
  | .httpStatusError st =>
      "An HTTP error occurred: " ++ (toString st ++ ". Please try again later.")
  | .otherException _ =>
      "An unexpected server error occurred. Please try again later."

/-- `simple_agent._get_current_weather`: one POST to the reasoning service
(always attempted — every branch, including every handler, follows the
single `client.post`), returning the one-key `{"response": ...}` dict. -/
def saGetCurrentWeather (city state : String) (r : SAReply) :
    List (String × String) × List Ev :=
  ([("response", saText r)], [.reasoningNet (saPrompt city state)])

/-- `fastapi_server.process_chat` (`POST /api/chat`): unpacks the
`WeatherQuery` model and returns `_get_current_weather(city, state)`'s dict
unchanged. -/
def processChat (city state : String) (r : SAReply) :
    List (String × String) × List Ev :=
  saGetCurrentWeather city state r

/-- Modelled from the spec: "a single operation, run(utterance) -> final
response text, callable either from a direct invocation harness or from a
thin request handler that accepts a structured (city, state)-shaped query and
forwards a synthesized utterance" — the handler as the spec describes it,
forwarding the synthesized utterance to `run`. The actual handler
(`processChat`) never calls `run`; this definition exists to compare the two. -/
def specHandlerForwardsToRun (mem : List WeatherAgent.Entry)
    (keys : WeatherAgent.Keys) (ext : WeatherAgent.Ext) (city state : String) :
    String × List WeatherAgent.Entry × List Ev :=
  WeatherAgent.run mem keys ext (saPrompt city state)

end WebAgent

/-! ## Auxiliary definitions for the statements and their instances -/

namespace WeatherAgent

/-- The first `n` characters of a string, for prefix-based reasoning about
the concatenated message strings. -/
def strTake (n : Nat) (s : String) : List Char := s.data.take n

/-- A concrete pair of configured credentials. -/
def keys0 : Keys := ⟨"opencage-key-123", "serpapi-key-456"⟩

/-- A concrete external behavior: the reasoning service requests the weather
tool with a misnamed argument key (`loc` instead of `location`), so the
dispatch `tool_func(**tool_args)` raises `TypeError`. -/
def extBadArgs : Ext :=
  ⟨.ok (.functionCall "get_current_weather" [("loc", "Paris")]),
   .ok 48 2, .ok (some "20.5") (some "10.2"), .ok []⟩

/-- A concrete external behavior: the reasoning service answers with plain
text. -/
def extText : Ext :=
  ⟨.ok (.text "Hello! How can I help?"), .ok 48 2, .ok none none, .ok []⟩

/-- A concrete external behavior: the reasoning service requests an
unregistered tool. -/
def extMissingTool : Ext :=
  ⟨.ok (.functionCall "get_stock_price" [("symbol", "ACME")]),
   .ok 48 2, .ok none none, .ok []⟩

/-- A concrete external behavior: a well-formed weather tool call with all
providers succeeding. -/
def extWeatherOk : Ext :=
  ⟨.ok (.functionCall "get_current_weather" [("location", "Springfield, IL")]),
   .ok 39 (-89), .ok (some "20.0") (some "8.5"), .ok []⟩

/-- A concrete external behavior: the reasoning-service POST itself fails at
the transport level. -/
def extTransport : Ext :=
  ⟨.transportFail "Cannot connect to host", .ok 48 2, .ok none none, .ok []⟩

/-- A concrete external behavior: the reasoning service echoes the web
handler's success response verbatim as a plain text answer. -/
def extEcho : Ext :=
  ⟨.ok (.text (WebAgent.saText (.success "Springfield" "IL" "68°F"))),
   .ok 0 0, .ok none none, .ok []⟩

end WeatherAgent

/-! ## Helper lemmas -/

namespace WeatherAgent

theorem strTake_ne {n : Nat} {a b : String} (h : strTake n a ≠ strTake n b) :
    a ≠ b :=
  fun e => h (by rw [e])

theorem strTake_append (n : Nat) (a b : String) (h : n ≤ a.data.length) :
    strTake n (a ++ b) = strTake n a := by
  unfold strTake
  rw [String.data_append]
  exact List.take_append_of_le_length h

theorem ne_empty_of_strTake {a : String} {n : Nat} (h : strTake n a ≠ []) :
    a ≠ "" := by
  intro e
  subst e
  exact h (by simp [strTake])

end WeatherAgent

/-! ## Claim theorems -/

open WeatherAgent WebAgent

set_option maxRecDepth 8192

/-- Helper: a string whose left part is non-empty is non-empty. -/
theorem append_ne_empty_left (a b : String) (h : a ≠ "") : a ++ b ≠ "" := by
  intro e
  apply h
  have hd : (a ++ b).data = [] := by rw [e]
  rw [String.data_append] at hd
  exact String.ext (List.append_eq_nil.mp hd).1

/-- Helper: the weather tool's result when geocoding produced an error
string — the string and trace pass through unchanged. -/
theorem getCurrentWeather_errorStr (key : String) (geo : GeoReply)
    (wr : WeatherReply) (loc msg : String) (evs : List Ev)
    (h : getLocationCoordsR key geo loc = (.errorStr msg, evs)) :
    getCurrentWeather key geo wr loc = (msg, evs) := by
  simp [getCurrentWeather, h]

/-- Helper: the weather tool's trace when geocoding produced coordinates —
one weather-provider request is appended whatever its outcome. -/
theorem getCurrentWeather_coords (key : String) (geo : GeoReply)
    (wr : WeatherReply) (loc : String) (la lo : Int) (evs : List Ev)
    (h : getLocationCoordsR key geo loc = (.coords la lo, evs)) :
    (getCurrentWeather key geo wr loc).2 = evs ++ [.weatherNet la lo] := by
  cases wr <;> simp [getCurrentWeather, h]

/-- Claim C1 (amended). In `run`, the user entry is always appended first;
when the `try` body returns normally, exactly two entries are appended —
the user entry then the assistant entry holding the final response — and the
response can be empty only when the reasoning service answered with an empty
final text; but when an unexpected fault is caught at the loop boundary
(e.g. an argument-invocation mismatch), only the user entry is appended and
the returned apology is non-empty. The original claim's "always exactly two
entries and a non-empty string" does not hold (see the counterexample). -/
theorem c1_amended_log_and_response :
    ∀ (mem : List Entry) (keys : Keys) (ext : Ext) (u : String),
      (∀ (r : String) (m : List Entry) (e : List Ev),
        runBody mem keys ext u = .ok r m e →
        run mem keys ext u = (r, m, e)
        ∧ m = mem ++ [⟨"user", u⟩, ⟨"assistant", r⟩]
        ∧ (r = "" → ext.llm = .ok (.text "")))
      ∧ (∀ (j : Bool) (m : List Entry) (e : List Ev),
        runBody mem keys ext u = .fault j m e →
        m = mem ++ [⟨"user", u⟩] ∧ (run mem keys ext u).1 ≠ "") := by
  intro mem keys ext u
  constructor
  · intro r m e h
    refine ⟨by simp [run, h], ?_⟩
    cases hllm : ext.llm with
    | ok c =>
      cases c with
      | functionCall n a =>
        by_cases hmem : n ∈ toolNames
        · cases hinv : invokeTool keys ext n a with
          | some p =>
            simp [runBody, getLLMResponseWithTools, hllm, hmem, hinv] at h
            obtain ⟨hr, hm, he⟩ := h
            subst hr
            subst hm
            refine ⟨by simp, ?_⟩
            intro hempty
            exact absurd hempty (append_ne_empty_left _ _ (by decide))
          | none =>
            simp [runBody, getLLMResponseWithTools, hllm, hmem, hinv] at h
        · simp [runBody, getLLMResponseWithTools, hllm, hmem] at h
          obtain ⟨hr, hm, he⟩ := h
          subst hr
          subst hm
          refine ⟨by simp, ?_⟩
          intro hempty
          exact absurd hempty (append_ne_empty_left _ _ (by decide))
      | text t =>
        simp [runBody, getLLMResponseWithTools, hllm] at h
        obtain ⟨hr, hm, he⟩ := h
        subst hr
        subst hm
        refine ⟨by simp, ?_⟩
        intro hempty
        subst hempty
        rfl
    | okMalformed =>
      simp [runBody, getLLMResponseWithTools, hllm] at h
      obtain ⟨hr, hm, he⟩ := h
      subst hr
      subst hm
      refine ⟨by simp, ?_⟩
      intro hempty
      exact absurd hempty (by decide)
    | httpError st body =>
      simp [runBody, getLLMResponseWithTools, hllm] at h
      obtain ⟨hr, hm, he⟩ := h
      subst hr
      subst hm
      refine ⟨by simp, ?_⟩
      intro hempty
      exact absurd hempty (by decide)
    | transportFail mm =>
      simp [runBody, getLLMResponseWithTools, hllm] at h
      obtain ⟨hr, hm, he⟩ := h
      subst hr
      subst hm
      refine ⟨by simp, ?_⟩
      intro hempty
      exact absurd hempty (by decide)
  · intro j m e h
    cases hllm : ext.llm with
    | ok c =>
      cases c with
      | functionCall n a =>
        by_cases hmem : n ∈ toolNames
        · cases hinv : invokeTool keys ext n a with
          | some p =>
            simp [runBody, getLLMResponseWithTools, hllm, hmem, hinv] at h
          | none =>
            simp [runBody, getLLMResponseWithTools, hllm, hmem, hinv] at h
            obtain ⟨hj, hm, he⟩ := h
            subst hj
            subst hm
            refine ⟨rfl, ?_⟩
            have hrun : run mem keys ext u
                = (unexpectedFaultMsg, mem ++ [⟨"user", u⟩], [Ev.reasoningNet u]) := by
              simp [run, runBody, getLLMResponseWithTools, hllm, hmem, hinv]
            rw [hrun]
            show unexpectedFaultMsg ≠ ""
            decide
        · simp [runBody, getLLMResponseWithTools, hllm, hmem] at h
      | text t =>
        simp [runBody, getLLMResponseWithTools, hllm] at h
    | okMalformed =>
      simp [runBody, getLLMResponseWithTools, hllm] at h
    | httpError st body =>
      simp [runBody, getLLMResponseWithTools, hllm] at h
    | transportFail mm =>
      simp [runBody, getLLMResponseWithTools, hllm] at h

/-- Claim C1 witness: a normal turn (plain-text reasoning answer) records
exactly the user and assistant entries, and the fault turn still returns a
non-empty string. -/
theorem c1_amended_witness :
    run [] keys0 extText "hi"
      = ("Hello! How can I help?",
         [⟨"user", "hi"⟩, ⟨"assistant", "Hello! How can I help?"⟩],
         [Ev.reasoningNet "hi"])
    ∧ (run [] keys0 extBadArgs "hi").1 ≠ "" := by
  have h1 := (c1_amended_log_and_response [] keys0 extText "hi").1
    "Hello! How can I help?"
    [⟨"user", "hi"⟩, ⟨"assistant", "Hello! How can I help?"⟩]
    [Ev.reasoningNet "hi"] rfl
  have h2 := (c1_amended_log_and_response [] keys0 extBadArgs "hi").2
    false [⟨"user", "hi"⟩] [Ev.reasoningNet "hi"] rfl
  exact ⟨h1.1, h2.2⟩

/-- Claim C1 counterexample: when the reasoning service requests the weather
tool with a misnamed argument key (`loc`), `run` catches the resulting
`TypeError` and returns the apology, but the conversation log holds only the
user entry — not the two entries the claim requires. -/
theorem c1_counterexample_fault_appends_one_entry :
    ¬ ((run [] keys0 extBadArgs "hi").2.1
        = [⟨"user", "hi"⟩, ⟨"assistant", (run [] keys0 extBadArgs "hi").1⟩]) := by
  decide

/-- Claim C2. `run` is total by construction (it is a function into
`String × List Entry × List Ev`); any fault raised by the `try` body is
caught at the loop boundary and converted to one of the two fixed fallback
strings, and in particular the one reachable fault — an
argument-invocation mismatch when calling a registered tool — yields exactly
the fixed fallback apology, with no tool network call recorded. -/
theorem c2_run_total_fault_to_fixed_apology :
    ∀ (mem : List Entry) (keys : Keys) (ext : Ext) (u : String),
      (∀ (j : Bool) (m : List Entry) (e : List Ev),
        runBody mem keys ext u = .fault j m e →
        run mem keys ext u
          = (if j then internalErrorMsg else unexpectedFaultMsg, m, e))
      ∧ (∀ (name : String) (args : List (String × String)),
          (getLLMResponseWithTools u ext.llm).1 = .callTool name args →
          name ∈ toolNames →
          invokeTool keys ext name args = none →
          run mem keys ext u
            = (unexpectedFaultMsg, mem ++ [⟨"user", u⟩], [Ev.reasoningNet u])) := by
  intro mem keys ext u
  constructor
  · intro j m e h
    cases j <;> simp [run, h]
  · intro name args hdec hmem hinv
    cases hllm : ext.llm with
    | ok c =>
      cases c with
      | functionCall n a =>
        rw [hllm] at hdec
        simp [getLLMResponseWithTools] at hdec
        obtain ⟨hn, ha⟩ := hdec
        subst hn
        subst ha
        simp [run, runBody, getLLMResponseWithTools, hllm, hmem, hinv]
      | text t =>
        rw [hllm] at hdec
        simp [getLLMResponseWithTools] at hdec
    | okMalformed =>
      rw [hllm] at hdec
      simp [getLLMResponseWithTools] at hdec
    | httpError st body =>
      rw [hllm] at hdec
      simp [getLLMResponseWithTools] at hdec
    | transportFail m =>
      rw [hllm] at hdec
      simp [getLLMResponseWithTools] at hdec

/-- Claim C2 witness: a weather tool call whose argument dict uses the key
`loc` instead of `location` is caught and converted to the fixed apology. -/
theorem c2_witness :
    run [] keys0 extBadArgs "hi"
      = (unexpectedFaultMsg, [⟨"user", "hi"⟩], [Ev.reasoningNet "hi"]) := by
  exact (c2_run_total_fault_to_fixed_apology [] keys0 extBadArgs "hi").2
    "get_current_weather" [("loc", "Paris")] rfl (by decide) rfl

/-- Claim C3. For every location, `_get_current_weather` enters the
geocoding tool exactly once; exactly one weather-provider request is
performed when that geocoding call yields coordinates; and when it fails,
the geocoding error string is returned unchanged and no weather-provider
request is performed. -/
theorem c3_weather_tool_nested_call_discipline :
    ∀ (key : String) (geo : GeoReply) (wr : WeatherReply) (loc : String),
      ((getCurrentWeather key geo wr loc).2.filter isGeoToolCall).length = 1
      ∧ (∀ la lo : Int, (getLocationCoordsR key geo loc).1 = .coords la lo →
          ((getCurrentWeather key geo wr loc).2.filter isWeatherNet).length = 1)
      ∧ (∀ s : String, (getLocationCoordsR key geo loc).1 = .errorStr s →
          (getCurrentWeather key geo wr loc).1 = (getLocationCoords key geo loc).1
          ∧ ((getCurrentWeather key geo wr loc).2.filter isWeatherNet).length = 0) := by
  intro key geo wr loc
  by_cases hk : key = "" ∨ key = "YOUR_OPENCAGE_API_KEY"
  · have h1 : getLocationCoordsR key geo loc
        = (.errorStr opencageKeyError, [.geoToolCall loc]) := by
      unfold getLocationCoordsR
      rw [if_pos hk]
    refine ⟨?_, ?_, ?_⟩
    · simp [getCurrentWeather_errorStr key geo wr loc _ _ h1, isGeoToolCall]
    · intro la lo hco
      rw [h1] at hco
      simp at hco
    · intro s hs
      exact ⟨by simp [getCurrentWeather_errorStr key geo wr loc _ _ h1, getLocationCoords, h1, coordsResultStr],
        by simp [getCurrentWeather_errorStr key geo wr loc _ _ h1, isWeatherNet]⟩
  · cases geo with
    | ok la lo =>
      have h1 : getLocationCoordsR key (.ok la lo) loc
          = (.coords la lo, [.geoToolCall loc, .geoNet loc]) := by
        unfold getLocationCoordsR
        rw [if_neg hk]
      refine ⟨?_, ?_, ?_⟩
      · rw [getCurrentWeather_coords key _ wr loc la lo _ h1]
        simp [isGeoToolCall]
      · intro la2 lo2 hco
        rw [getCurrentWeather_coords key _ wr loc la lo _ h1]
        simp [isWeatherNet]
      · intro s hs
        rw [h1] at hs
        simp at hs
    | okNoResults =>
      have h1 : getLocationCoordsR key .okNoResults loc
          = (.errorStr ("Error: No coordinates found for location " ++
              (apos ++ (loc ++ (apos ++ ".")))), [.geoToolCall loc, .geoNet loc]) := by
        unfold getLocationCoordsR
        rw [if_neg hk]
      refine ⟨?_, ?_, ?_⟩
      · simp [getCurrentWeather_errorStr key _ wr loc _ _ h1, isGeoToolCall]
      · intro la lo hco
        rw [h1] at hco
        simp at hco
      · intro s hs
        exact ⟨by simp [getCurrentWeather_errorStr key _ wr loc _ _ h1, getLocationCoords, h1, coordsResultStr],
          by simp [getCurrentWeather_errorStr key _ wr loc _ _ h1, isWeatherNet]⟩
    | httpError st body =>
      have h1 : getLocationCoordsR key (.httpError st body) loc
          = (.errorStr ("Error: Failed to fetch coordinates. Status code: " ++
              (toString st ++ (". Details: " ++ body))), [.geoToolCall loc, .geoNet loc]) := by
        unfold getLocationCoordsR
        rw [if_neg hk]
      refine ⟨?_, ?_, ?_⟩
      · simp [getCurrentWeather_errorStr key _ wr loc _ _ h1, isGeoToolCall]
      · intro la lo hco
        rw [h1] at hco
        simp at hco
      · intro s hs
        exact ⟨by simp [getCurrentWeather_errorStr key _ wr loc _ _ h1, getLocationCoords, h1, coordsResultStr],
          by simp [getCurrentWeather_errorStr key _ wr loc _ _ h1, isWeatherNet]⟩
    | transportFail m =>
      have h1 : getLocationCoordsR key (.transportFail m) loc
          = (.errorStr ("An error occurred during the API call: " ++ m),
             [.geoToolCall loc, .geoNet loc]) := by
        unfold getLocationCoordsR
        rw [if_neg hk]
      refine ⟨?_, ?_, ?_⟩
      · simp [getCurrentWeather_errorStr key _ wr loc _ _ h1, isGeoToolCall]
      · intro la lo hco
        rw [h1] at hco
        simp at hco
      · intro s hs
        exact ⟨by simp [getCurrentWeather_errorStr key _ wr loc _ _ h1, getLocationCoords, h1, coordsResultStr],
          by simp [getCurrentWeather_errorStr key _ wr loc _ _ h1, isWeatherNet]⟩

/-- Claim C3 witness: with a configured key and a successful geocode, exactly
one weather-provider request happens; with a missing key, the geocoding
error string passes through unchanged. -/
theorem c3_witness :
    ((getCurrentWeather "k" (.ok 1 2) (.ok (some "20") (some "7")) "NYC").2.filter isWeatherNet).length = 1
    ∧ (getCurrentWeather "" (.ok 1 2) (.ok none none) "NYC").1
        = (getLocationCoords "" (.ok 1 2) "NYC").1 := by
  have h1 := c3_weather_tool_nested_call_discipline "k" (.ok 1 2) (.ok (some "20") (some "7")) "NYC"
  have h2 := c3_weather_tool_nested_call_discipline "" (.ok 1 2) (.ok none none) "NYC"
  exact ⟨h1.2.1 1 2 rfl, (h2.2.2 opencageKeyError rfl).1⟩

/-- Helper: no tool-template response of `run` equals a handler response. -/
theorem toolResponse_ne_saText (x : String) (r : SAReply) :
    toolResponsePrefix ++ x ≠ saText r := by
  cases r with
  | success c2 s2 t2 =>
    apply strTake_ne (n := 1)
    rw [strTake_append 1 _ _ (by decide)]
    show strTake 1 toolResponsePrefix
      ≠ strTake 1 ("The current temperature in " ++
        (c2 ++ (", " ++ (s2 ++ (" is " ++ (t2 ++ "."))))))
    rw [strTake_append 1 _ _ (by decide)]
    decide
  | keyErrorReply =>
    apply strTake_ne (n := 2)
    rw [strTake_append 2 _ _ (by decide)]
    decide
  | jsonErrorReply =>
    apply strTake_ne (n := 2)
    rw [strTake_append 2 _ _ (by decide)]
    decide
  | httpStatusError st =>
    apply strTake_ne (n := 1)
    rw [strTake_append 1 _ _ (by decide)]
    show strTake 1 toolResponsePrefix
      ≠ strTake 1 ("An HTTP error occurred: " ++
        (toString st ++ ". Please try again later."))
    rw [strTake_append 1 _ _ (by decide)]
    decide
  | otherException m2 =>
    apply strTake_ne (n := 1)
    rw [strTake_append 1 _ _ (by decide)]
    show strTake 1 toolResponsePrefix
      ≠ strTake 1 "An unexpected server error occurred. Please try again later."
    decide

/-- Helper: the fixed fault apology of `run` equals no handler response. -/
theorem unexpectedFaultMsg_ne_saText (r : SAReply) :
    unexpectedFaultMsg ≠ saText r := by
  cases r with
  | success c2 s2 t2 =>
    apply strTake_ne (n := 1)
    show strTake 1 ("I" ++ (apos ++ "m sorry, an unexpected error occurred."))
      ≠ strTake 1 ("The current temperature in " ++
        (c2 ++ (", " ++ (s2 ++ (" is " ++ (t2 ++ "."))))))
    rw [strTake_append 1 _ _ (by decide), strTake_append 1 _ _ (by decide)]
    decide
  | keyErrorReply => decide
  | jsonErrorReply => decide
  | httpStatusError st =>
    apply strTake_ne (n := 1)
    show strTake 1 ("I" ++ (apos ++ "m sorry, an unexpected error occurred."))
      ≠ strTake 1 ("An HTTP error occurred: " ++
        (toString st ++ ". Please try again later."))
    rw [strTake_append 1 _ _ (by decide), strTake_append 1 _ _ (by decide)]
    decide
  | otherException m2 =>
    show unexpectedFaultMsg
      ≠ "An unexpected server error occurred. Please try again later."
    decide

/-- Helper: `run`'s else-branch response equals no handler response. -/
theorem unableMsg_ne_saText (r : SAReply) : unableMsg ≠ saText r := by
  cases r with
  | success c2 s2 t2 =>
    apply strTake_ne (n := 1)
    show strTake 1 ("I" ++ (apos ++ ("m sorry, I" ++
        (apos ++ "m unable to process that request."))))
      ≠ strTake 1 ("The current temperature in " ++
        (c2 ++ (", " ++ (s2 ++ (" is " ++ (t2 ++ "."))))))
    rw [strTake_append 1 _ _ (by decide), strTake_append 1 _ _ (by decide)]
    decide
  | keyErrorReply => decide
  | jsonErrorReply => decide
  | httpStatusError st =>
    apply strTake_ne (n := 1)
    show strTake 1 ("I" ++ (apos ++ ("m sorry, I" ++
        (apos ++ "m unable to process that request."))))
      ≠ strTake 1 ("An HTTP error occurred: " ++
        (toString st ++ ". Please try again later."))
    rw [strTake_append 1 _ _ (by decide), strTake_append 1 _ _ (by decide)]
    decide
  | otherException m2 =>
    show unableMsg
      ≠ "An unexpected server error occurred. Please try again later."
    decide

/-- Helper: `run`'s missing-tool diagnostic equals no handler response. -/
theorem toolMissingMsg_ne_saText (n : String) (r : SAReply) :
    toolMissingMsg n ≠ saText r := by
  have hleft : ∀ b : String,
      strTake 1 ("Error: The requested tool " ++ b) = strTake 1 "Error: The requested tool " :=
    fun b => strTake_append 1 _ b (by decide)
  cases r with
  | success c2 s2 t2 =>
    apply strTake_ne (n := 1)
    show strTake 1 ("Error: The requested tool " ++
        (apos ++ (n ++ (apos ++ " does not exist."))))
      ≠ strTake 1 ("The current temperature in " ++
        (c2 ++ (", " ++ (s2 ++ (" is " ++ (t2 ++ "."))))))
    rw [hleft, strTake_append 1 _ _ (by decide)]
    decide
  | keyErrorReply =>
    apply strTake_ne (n := 1)
    show strTake 1 ("Error: The requested tool " ++
        (apos ++ (n ++ (apos ++ " does not exist."))))
      ≠ strTake 1 (saText .keyErrorReply)
    rw [hleft]
    decide
  | jsonErrorReply =>
    apply strTake_ne (n := 1)
    show strTake 1 ("Error: The requested tool " ++
        (apos ++ (n ++ (apos ++ " does not exist."))))
      ≠ strTake 1 (saText .jsonErrorReply)
    rw [hleft]
    decide
  | httpStatusError st =>
    apply strTake_ne (n := 1)
    show strTake 1 ("Error: The requested tool " ++
        (apos ++ (n ++ (apos ++ " does not exist."))))
      ≠ strTake 1 ("An HTTP error occurred: " ++
        (toString st ++ ". Please try again later."))
    rw [hleft, strTake_append 1 _ _ (by decide)]
    decide
  | otherException m2 =>
    apply strTake_ne (n := 1)
    show strTake 1 ("Error: The requested tool " ++
        (apos ++ (n ++ (apos ++ " does not exist."))))
      ≠ strTake 1 "An unexpected server error occurred. Please try again later."
    rw [hleft]
    decide

/-- Claim C4 (amended). The web front end's `POST /api/chat` handler does not
behave as `run` on a synthesized utterance: whenever `run`'s reasoning
decision is the weather tool call (the tool-dispatch protocol the spec
models), `run`'s final response differs from every response the handler can
produce; and over all of `run`'s behaviors, the handler's response coincides
with a `run` response only in the degenerate case where the reasoning
service echoed that exact text back as a plain final answer — which can
happen. See the counterexample for the claim as stated. -/
theorem c4_amended_handler_not_refinement_of_run :
    ∀ (r : SAReply) (mem : List Entry) (keys : Keys) (u : String),
      (∀ (ext : Ext) (args : List (String × String)),
        (getLLMResponseWithTools u ext.llm).1 = .callTool "get_current_weather" args →
        (run mem keys ext u).1 ≠ saText r)
      ∧ (∀ ext : Ext, (run mem keys ext u).1 = saText r →
          ext.llm = .ok (.text (saText r)))
      ∧ (∃ ext : Ext, (run mem keys ext u).1 = saText r) := by
  intro r mem keys u
  refine ⟨?_, ?_, ?_⟩
  · intro ext args hdec
    cases hllm : ext.llm with
    | ok c =>
      cases c with
      | functionCall n a =>
        rw [hllm] at hdec
        simp [getLLMResponseWithTools] at hdec
        obtain ⟨hn, ha⟩ := hdec
        subst hn
        subst ha
        cases hinv : argsSingle a "location" with
        | none =>
          have hrun : (run mem keys ext u).1 = unexpectedFaultMsg := by
            simp [run, runBody, getLLMResponseWithTools, hllm, toolNames,
              invokeTool, hinv, Option.map]
          rw [hrun]
          cases r with
          | success c2 s2 t2 =>
            apply strTake_ne (n := 1)
            show strTake 1 ("I" ++ (apos ++ "m sorry, an unexpected error occurred."))
              ≠ strTake 1 ("The current temperature in " ++
                (c2 ++ (", " ++ (s2 ++ (" is " ++ (t2 ++ "."))))))
            rw [strTake_append 1 _ _ (by decide), strTake_append 1 _ _ (by decide)]
            decide
          | keyErrorReply => decide
          | jsonErrorReply => decide
          | httpStatusError st =>
            apply strTake_ne (n := 1)
            show strTake 1 ("I" ++ (apos ++ "m sorry, an unexpected error occurred."))
              ≠ strTake 1 ("An HTTP error occurred: " ++
                (toString st ++ ". Please try again later."))
            rw [strTake_append 1 _ _ (by decide), strTake_append 1 _ _ (by decide)]
            decide
          | otherException m2 =>
            show unexpectedFaultMsg
              ≠ "An unexpected server error occurred. Please try again later."
            decide
        | some loc =>
          have hrun : (run mem keys ext u).1 = toolResponsePrefix ++
              (getCurrentWeather keys.opencage ext.geo ext.weather loc).1 := by
            simp [run, runBody, getLLMResponseWithTools, hllm, toolNames,
              invokeTool, hinv, Option.map]
          rw [hrun]
          cases r with
          | success c2 s2 t2 =>
            apply strTake_ne (n := 1)
            rw [strTake_append 1 _ _ (by decide)]
            show strTake 1 toolResponsePrefix
              ≠ strTake 1 ("The current temperature in " ++
                (c2 ++ (", " ++ (s2 ++ (" is " ++ (t2 ++ "."))))))
            rw [strTake_append 1 _ _ (by decide)]
            decide
          | keyErrorReply =>
            apply strTake_ne (n := 2)
            rw [strTake_append 2 _ _ (by decide)]
            decide
          | jsonErrorReply =>
            apply strTake_ne (n := 2)
            rw [strTake_append 2 _ _ (by decide)]
            decide
          | httpStatusError st =>
            apply strTake_ne (n := 1)
            rw [strTake_append 1 _ _ (by decide)]
            show strTake 1 toolResponsePrefix
              ≠ strTake 1 ("An HTTP error occurred: " ++
                (toString st ++ ". Please try again later."))
            rw [strTake_append 1 _ _ (by decide)]
            decide
          | otherException m2 =>
            apply strTake_ne (n := 1)
            rw [strTake_append 1 _ _ (by decide)]
            show strTake 1 toolResponsePrefix
              ≠ strTake 1 "An unexpected server error occurred. Please try again later."
            decide
      | text t =>
        rw [hllm] at hdec
        simp [getLLMResponseWithTools] at hdec
    | okMalformed =>
      rw [hllm] at hdec
      simp [getLLMResponseWithTools] at hdec
    | httpError st body =>
      rw [hllm] at hdec
      simp [getLLMResponseWithTools] at hdec
    | transportFail m2 =>
      rw [hllm] at hdec
      simp [getLLMResponseWithTools] at hdec
  · intro ext h
    cases hllm : ext.llm with
    | ok c =>
      cases c with
      | functionCall n a =>
        exfalso
        by_cases hmem : n ∈ toolNames
        · cases hinv : invokeTool keys ext n a with
          | some p =>
            obtain ⟨res, tevs⟩ := p
            have hrun : (run mem keys ext u).1 = toolResponsePrefix ++ res := by
              simp [run, runBody, getLLMResponseWithTools, hllm, hmem, hinv]
            rw [hrun] at h
            exact toolResponse_ne_saText res r h
          | none =>
            have hrun : (run mem keys ext u).1 = unexpectedFaultMsg := by
              simp [run, runBody, getLLMResponseWithTools, hllm, hmem, hinv]
            rw [hrun] at h
            exact unexpectedFaultMsg_ne_saText r h
        · have hrun : (run mem keys ext u).1 = toolMissingMsg n := by
            simp [run, runBody, getLLMResponseWithTools, hllm, hmem]
          rw [hrun] at h
          exact toolMissingMsg_ne_saText n r h
      | text t =>
        have hrun : (run mem keys ext u).1 = t := by
          simp [run, runBody, getLLMResponseWithTools, hllm]
        rw [hrun] at h
        rw [h]
    | okMalformed =>
      exfalso
      have hrun : (run mem keys ext u).1 = unableMsg := by
        simp [run, runBody, getLLMResponseWithTools, hllm]
      rw [hrun] at h
      exact unableMsg_ne_saText r h
    | httpError st body =>
      exfalso
      have hrun : (run mem keys ext u).1 = unableMsg := by
        simp [run, runBody, getLLMResponseWithTools, hllm]
      rw [hrun] at h
      exact unableMsg_ne_saText r h
    | transportFail m2 =>
      exfalso
      have hrun : (run mem keys ext u).1 = unableMsg := by
        simp [run, runBody, getLLMResponseWithTools, hllm]
      rw [hrun] at h
      exact unableMsg_ne_saText r h
  · exact ⟨⟨.ok (.text (saText r)), .ok 0 0, .ok none none, .ok []⟩, rfl⟩

/-- Claim C4 witness: on a successful weather turn `run`'s response (tool
template) differs from the handler's success response; a concrete
coincidence of the two responses (the echo behavior `extEcho`) really has
the echoed text as its reasoning reply; and such a coincidence exists. -/
theorem c4_amended_witness :
    (run [] keys0 extWeatherOk "hi").1
      ≠ saText (SAReply.success "Springfield" "IL" "68°F")
    ∧ extEcho.llm
      = LLMReply.ok (.text (saText (SAReply.success "Springfield" "IL" "68°F")))
    ∧ ∃ ext : Ext, (run [] keys0 ext "hi").1
      = saText (SAReply.success "Springfield" "IL" "68°F") := by
  have h := c4_amended_handler_not_refinement_of_run
    (SAReply.success "Springfield" "IL" "68°F") [] keys0 "hi"
  exact ⟨h.1 extWeatherOk [("location", "Springfield, IL")] rfl,
    h.2.1 extEcho rfl, h.2.2⟩

/-- Claim C4 counterexample: for the query (Springfield, IL) with matching
successful external outcomes on both sides, the handler's response dict is
not the dict holding the response `run` produces on the synthesized
utterance — the handler formats "The current temperature in ..." while `run`
wraps its weather tool result in the "I used my tool ..." template. -/
theorem c4_counterexample_handler_response_differs :
    (processChat "Springfield" "IL" (SAReply.success "Springfield" "IL" "68°F")).1
      ≠ [("response",
          (specHandlerForwardsToRun [] keys0 extWeatherOk "Springfield" "IL").1)] := by
  decide

/-- Claim C5. When the reasoning decision is `CallTool` with a name missing
from the tool registry, `run` returns the diagnostic naming that tool, both
log entries are appended, and the trace holds only the reasoning-service
request — no tool implementation runs and no tool network call occurs. -/
theorem c5_unregistered_tool_named_no_tool_invoked :
    ∀ (mem : List Entry) (keys : Keys) (ext : Ext) (u name : String)
      (args : List (String × String)),
      (getLLMResponseWithTools u ext.llm).1 = .callTool name args →
      name ∉ toolNames →
      run mem keys ext u =
        (toolMissingMsg name,
         mem ++ [⟨"user", u⟩, ⟨"assistant", toolMissingMsg name⟩],
         [Ev.reasoningNet u]) := by
  intro mem keys ext u name args hdec hname
  cases hllm : ext.llm with
  | ok c =>
    cases c with
    | functionCall n a =>
      rw [hllm] at hdec
      simp [getLLMResponseWithTools] at hdec
      obtain ⟨hn, ha⟩ := hdec
      subst hn
      subst ha
      simp [run, runBody, getLLMResponseWithTools, hllm, hname]
    | text t =>
      rw [hllm] at hdec
      simp [getLLMResponseWithTools] at hdec
  | okMalformed =>
    rw [hllm] at hdec
    simp [getLLMResponseWithTools] at hdec
  | httpError st body =>
    rw [hllm] at hdec
    simp [getLLMResponseWithTools] at hdec
  | transportFail m =>
    rw [hllm] at hdec
    simp [getLLMResponseWithTools] at hdec

/-- Claim C5 witness: the unregistered tool `get_stock_price` is named in
the diagnostic and the trace holds only the reasoning call. -/
theorem c5_witness :
    run [] keys0 extMissingTool "hi" =
      (toolMissingMsg "get_stock_price",
       [⟨"user", "hi"⟩, ⟨"assistant", toolMissingMsg "get_stock_price"⟩],
       [Ev.reasoningNet "hi"]) := by
  exact c5_unregistered_tool_named_no_tool_invoked [] keys0 extMissingTool "hi"
    "get_stock_price" [("symbol", "ACME")] rfl (by decide)

/-- Claim C6. If the OpenCage credential is absent (empty or left at its
placeholder), the geocoding tool returns its error string — which contains
the credential name OPENCAGE_API_KEY — without performing any network
request, and likewise the search tool for SERPAPI_API_KEY. -/
theorem c6_missing_credential_checked_before_network :
    ∀ (okey skey : String) (geo : GeoReply) (sr : SearchReply) (loc q : String),
      ((okey = "" ∨ okey = "YOUR_OPENCAGE_API_KEY") →
        getLocationCoords okey geo loc = (opencageKeyError, [Ev.geoToolCall loc])
        ∧ (∃ a b : String, opencageKeyError = a ++ ("OPENCAGE_API_KEY" ++ b))
        ∧ (getLocationCoords okey geo loc).2.filter isNetEv = [])
      ∧ ((skey = "" ∨ skey = "YOUR_SERPAPI_KEY") →
        getSearchResults skey sr q = (serpapiKeyError, [])
        ∧ (∃ a b : String, serpapiKeyError = a ++ ("SERPAPI_API_KEY" ++ b))) := by
  intro okey skey geo sr loc q
  constructor
  · intro h
    have h1 : getLocationCoordsR okey geo loc
        = (.errorStr opencageKeyError, [.geoToolCall loc]) := by
      unfold getLocationCoordsR
      rw [if_pos h]
    refine ⟨?_, ?_, ?_⟩
    · simp [getLocationCoords, h1, coordsResultStr]
    · exact ⟨"Error: OpenCage API key is not set. Please get a free key from https://opencagedata.com/pricing and set the ",
        " environment variable or replace " ++ (apos ++ ("YOUR_OPENCAGE_API_KEY" ++ (apos ++ " in the code."))),
        by decide⟩
    · simp [getLocationCoords, h1, isNetEv]
  · intro h
    refine ⟨?_, ?_⟩
    · unfold getSearchResults
      rw [if_pos h]
    · exact ⟨"Error: SerpApi key is not set. Please get a key from https://serpapi.com/users/sign_up and set the ",
        " environment variable or replace " ++ (apos ++ ("YOUR_SERPAPI_KEY" ++ (apos ++ " in the code."))),
        by decide⟩

/-- Claim C6 witness: with both credentials unset (empty env), each tool
returns its key error and performs no network request. -/
theorem c6_witness :
    (getLocationCoords "" (.ok 1 2) "NYC" = (opencageKeyError, [Ev.geoToolCall "NYC"])
      ∧ (∃ a b : String, opencageKeyError = a ++ ("OPENCAGE_API_KEY" ++ b))
      ∧ (getLocationCoords "" (.ok 1 2) "NYC").2.filter isNetEv = [])
    ∧ (getSearchResults "" (.ok []) "news" = (serpapiKeyError, [])
      ∧ (∃ a b : String, serpapiKeyError = a ++ ("SERPAPI_API_KEY" ++ b))) := by
  have h := c6_missing_credential_checked_before_network "" "" (.ok 1 2) (.ok []) "NYC" "news"
  exact ⟨h.1 (Or.inl rfl), h.2 (Or.inl rfl)⟩

/-- Claim C7. The reasoning client converts every failure into an `error`
decision with its fixed diagnostic — "API call failed." for a non-2xx
response, "Network request failed." for a transport failure or a reply shape
that matches neither a function call nor a text answer — and returns
normally in all cases. -/
theorem c7_reasoning_client_failures_yield_error_decision :
    ∀ (prompt : String) (st : Nat) (body m : String),
      (getLLMResponseWithTools prompt (.httpError st body)).1
          = .error "API call failed."
      ∧ (getLLMResponseWithTools prompt .okMalformed).1
          = .error "Network request failed."
      ∧ (getLLMResponseWithTools prompt (.transportFail m)).1
          = .error "Network request failed." := by
  intro prompt st body m
  exact ⟨rfl, rfl, rfl⟩

/-- Claim C8. When the reasoning-service call fails at the transport level,
`run` returns the fixed fallback apology and the log still records both
entries of the turn (user, then assistant holding the apology). -/
theorem c8_transport_failure_fallback_and_full_log :
    ∀ (mem : List Entry) (keys : Keys) (ext : Ext) (u m : String),
      ext.llm = .transportFail m →
      run mem keys ext u =
        (unableMsg, mem ++ [⟨"user", u⟩, ⟨"assistant", unableMsg⟩],
         [Ev.reasoningNet u]) := by
  intro mem keys ext u m h
  simp [run, runBody, getLLMResponseWithTools, h]

/-- Claim C8 witness: a concrete transport failure yields the fallback
apology with both entries logged. -/
theorem c8_witness :
    run [] keys0 extTransport "hi" =
      (unableMsg, [⟨"user", "hi"⟩, ⟨"assistant", unableMsg⟩],
       [Ev.reasoningNet "hi"]) := by
  exact c8_transport_failure_fallback_and_full_log [] keys0 extTransport "hi"
    "Cannot connect to host" rfl

/-- Claim C9. The web front end's weather path performs exactly one outbound
request — the reasoning-service POST carrying the synthesized prompt — and
never contacts a geocoding or weather provider; on success its temperature
text comes verbatim from the reasoning service's parsed reply fields. -/
theorem c9_web_weather_only_reasoning_call :
    ∀ (city state : String) (r : SAReply),
      (saGetCurrentWeather city state r).2 = [Ev.reasoningNet (saPrompt city state)]
      ∧ (saGetCurrentWeather city state r).2.filter isGeoNet = []
      ∧ (saGetCurrentWeather city state r).2.filter isWeatherNet = []
      ∧ ∀ (c s t : String),
          (saGetCurrentWeather city state (SAReply.success c s t)).1
            = [("response",
                "The current temperature in " ++
                  (c ++ (", " ++ (s ++ (" is " ++ (t ++ "."))))))] := by
  intro city state r
  exact ⟨rfl, rfl, rfl, fun c s t => rfl⟩

/-- Claim C10. For every `{city, state}` query and every external outcome,
the endpoint returns a dictionary with exactly the key "response" whose
value is a non-empty string. -/
theorem c10_endpoint_single_response_key_nonempty :
    ∀ (city state : String) (r : SAReply),
      ∃ t : String, (processChat city state r).1 = [("response", t)] ∧ t ≠ "" := by
  intro city state r
  refine ⟨saText r, rfl, ?_⟩
  cases r with
  | success c s t =>
    show "The current temperature in " ++ (c ++ (", " ++ (s ++ (" is " ++ (t ++ "."))))) ≠ ""
    apply ne_empty_of_strTake (n := 1)
    rw [strTake_append 1 _ _ (by decide)]
    decide
  | keyErrorReply => decide
  | jsonErrorReply => decide
  | httpStatusError st =>
    show "An HTTP error occurred: " ++ (toString st ++ ". Please try again later.") ≠ ""
    apply ne_empty_of_strTake (n := 1)
    rw [strTake_append 1 _ _ (by decide)]
    decide
  | otherException m =>
    show "An unexpected server error occurred. Please try again later." ≠ ""
    decide
